import Mathlib

/-!
Shallow embedding of the querydash-backend query-execution core:
the Upstash-REST Redis cache client (`src/config/redis.ts`, the
fetch-based version the claims cite), the `POST /:dashboardId/execute`
route handler (the Redis-using variant), the JWT `authenticate`
middleware (`src/middleware/auth.ts`), the socket `execute-query`
handler (`src/server.ts`), and the Express `errorHandler`
(`src/middleware/errorHandler.ts`).

Modelling conventions:
- Machine state that the handlers touch (the Redis backing store) is
  passed explicitly; each backend round trip takes a `fail : Bool`
  saying whether that `fetch` call throws (network failure), mirroring
  the `try/catch` in `RedisClient`.
- The `data` field of an HTTP response is represented by its JSON
  serialization: `res.json(JSON.parse(s))` emits exactly the canonical
  string `s` that `JSON.stringify` produced, so comparing serialized
  strings is comparing the delivered payloads bit for bit.
- The handler records a trace of the external calls it makes
  (cache get/set, executor invocation, DB insert, topic broadcast);
  the mock result construction inside the handler stands in for the
  external query executor the spec describes.
-/

namespace QueryDash

/-- JSON scalar values appearing in query-result rows. -/
inductive JValue where
  | num : Int → JValue
  | str : String → JValue
deriving Repr, DecidableEq

/-- Tabular result shape: columns plus rows of field/value pairs. -/
structure QueryResult where
  columns : List String
  rows : List (List (String × JValue))
deriving Repr, DecidableEq

/-- JSON serialization of a scalar. -/
def JValue.toJson : JValue → String
  | JValue.num n => toString n
  | JValue.str s => "\"" ++ s ++ "\""

/-- JSON serialization of one row field. -/
def fieldToJson (p : String × JValue) : String :=
  "\"" ++ p.1 ++ "\":" ++ p.2.toJson

/-- JSON serialization of a row object. -/
def rowToJson (r : List (String × JValue)) : String :=
  "\x7b" ++ String.intercalate "," (r.map fieldToJson) ++ "\x7d"

/-- The `JSON.stringify` serialization of a tabular result. -/
def QueryResult.toJson (q : QueryResult) : String :=
  "\x7b\"columns\":[" ++ String.intercalate "," (q.columns.map (fun c => "\"" ++ c ++ "\"")) ++
    "],\"rows\":[" ++ String.intercalate "," (q.rows.map rowToJson) ++ "]\x7d"

/-- The constant result the route handler produces (`src/routes/queries.ts`,
Redis variant, lines 26-32). -/
def mockResult : QueryResult :=
  { columns := ["id", "name", "value"],
    rows := [[("id", JValue.num 1), ("name", JValue.str "Sample Data"), ("value", JValue.num 100)],
             [("id", JValue.num 2), ("name", JValue.str "Sample Data 2"), ("value", JValue.num 200)]] }

/-- Snapshot of the Redis backing store: entries (key, value, expiry time
in seconds since epoch). -/
abbrev Store := List (String × String × Nat)

/-- Read a live entry: present and not yet expired. -/
def storeGet (s : Store) (now : Nat) (k : String) : Option String :=
  match s.find? (fun e => e.1 == k) with
  | some e => if now < e.2.2 then some e.2.1 else none
  | none => none

/-- Write an entry, overwriting any previous entry for the key. -/
def storeSet (s : Store) (k v : String) (expiry : Nat) : Store :=
  (k, v, expiry) :: s.filter (fun e => e.1 != k)

/-- Configuration of `RedisClient` read from the environment at construction
(`baseUrl` from REDIS_URL, `token` from REDIS_TOKEN). -/
structure RedisClient where
  baseUrl : String
  token : String
deriving Repr, DecidableEq

/-- One backend GET round trip: the fetch either throws or returns the
stored value (Upstash returns null for a missing/expired key). -/
def backendGet (s : Store) (now : Nat) (fail : Bool) (k : String) :
    Except String (Option String) :=
  if fail then Except.error "network error" else Except.ok (storeGet s now k)

/-- One backend SET round trip with expiry `ex` seconds from `now`. -/
def backendSet (s : Store) (now : Nat) (fail : Bool) (k v : String) (ex : Nat) :
    Except String Store :=
  if fail then Except.error "network error" else Except.ok (storeSet s k v (now + ex))

/-- One backend DEL round trip. -/
def backendDel (s : Store) (fail : Bool) (k : String) : Except String Store :=
  if fail then Except.error "network error" else Except.ok (s.filter (fun e => e.1 != k))

/-- The get method of `RedisClient`: returns null when unconfigured;
catches any fetch error, logs it and returns null. -/
def RedisClient.get (c : RedisClient) (s : Store) (now : Nat) (fail : Bool)
    (k : String) : Option String :=
  if c.baseUrl.isEmpty then none
  else
    match backendGet s now fail k with
    | Except.ok v => v
    | Except.error _ => none

/-- The set method of `RedisClient`, declared with a default of 300 for
`exSeconds`: no-op when unconfigured; catches any fetch error and
leaves the store unchanged. Passing `none` for `exSeconds` models a
call that omits the TTL argument, in which case the declared default of
300 seconds applies. -/
def RedisClient.set (c : RedisClient) (s : Store) (now : Nat) (fail : Bool)
    (k v : String) (exSeconds : Option Nat) : Store :=
  if c.baseUrl.isEmpty then s
  else
    match backendSet s now fail k v (exSeconds.getD 300) with
    | Except.ok s2 => s2
    | Except.error _ => s

/-- The del method of `RedisClient`: no-op when unconfigured; catches
any fetch error. -/
def RedisClient.del (c : RedisClient) (s : Store) (fail : Bool) (k : String) : Store :=
  if c.baseUrl.isEmpty then s
  else
    match backendDel s fail k with
    | Except.ok s2 => s2
    | Except.error _ => s

/-- Trace of external calls a request handler makes. `broadcast` is the
socket.io fan-out to a dashboard topic; it is in the vocabulary so that
its absence from a handler trace is an expressible fact. -/
inductive Effect where
  | cacheGet : String → Effect
  | cacheSet : String → String → Nat → Effect
  | execute : String → Effect
  | dbInsert : String → String → String → Effect
  | broadcast : String → Effect
deriving Repr, DecidableEq

/-- Whether an effect is a topic broadcast. -/
def Effect.isBroadcast : Effect → Bool
  | Effect.broadcast _ => true
  | _ => false

/-- HTTP responses the execute route can send. `ok data fromCache`
models `res.json(\x7bdata, fromCache\x7d)` with `data` given by its JSON
serialization. -/
inductive HttpResponse where
  | ok : String → Bool → HttpResponse
  | badRequest : String → HttpResponse
  | unauthorized : String → HttpResponse
  | serverError : String → HttpResponse
deriving Repr, DecidableEq

/-- Ambient state and failure schedule for one handler run. -/
structure Env where
  client : RedisClient
  store : Store
  now : Nat
  getFails : Bool
  setFails : Bool
  dbFails : Bool
deriving Repr

/-- Cache key derivation from the route handler: the template literal
query:(dashboardId):(naturalLanguage), built from the raw text, with no
normalization of case or whitespace. -/
def cacheKey (dashboardId naturalLanguage : String) : String :=
  "query:" ++ dashboardId ++ ":" ++ naturalLanguage

/-- Result of one run of the execute route: the response sent, the
resulting cache store, and the trace of external calls made. -/
structure ExecOutcome where
  response : HttpResponse
  store : Store
  effects : List Effect
deriving Repr

/-- The `POST /:dashboardId/execute` handler body (Redis variant),
after `authenticate` has passed: reject empty text with 400; consult
the cache and on a hit reply from it; otherwise build the mock result
(standing in for the external executor), cache it with an explicit TTL
of 5 seconds, insert a row into `queries`, and reply. A thrown DB
insert is caught by the catch-all of the handler, which replies 500. -/
def executeHandler (env : Env) (dashboardId naturalLanguage : String) : ExecOutcome :=
  if naturalLanguage.isEmpty then
    ⟨HttpResponse.badRequest "Natural language query required", env.store, []⟩
  else
    let key := cacheKey dashboardId naturalLanguage
    match env.client.get env.store env.now env.getFails key with
    | some cached =>
        ⟨HttpResponse.ok cached true, env.store, [Effect.cacheGet key]⟩
    | none =>
        let rj := mockResult.toJson
        let store2 := env.client.set env.store env.now env.setFails key rj (some 5)
        let fx := [Effect.cacheGet key, Effect.execute naturalLanguage,
                   Effect.cacheSet key rj 5,
                   Effect.dbInsert dashboardId naturalLanguage rj]
        if env.dbFails then
          ⟨HttpResponse.serverError "Query execution failed", store2, fx⟩
        else
          ⟨HttpResponse.ok rj false, store2, fx⟩

/-- Splitting a character list at every occurrence of a separator,
structurally; the JS split keeps empty segments, so the empty input
yields one empty segment. -/
def splitChars (sep : Char) : List Char → List (List Char)
  | [] => [[]]
  | c :: cs =>
      let r := splitChars sep cs
      if c = sep then [] :: r
      else
        match r with
        | [] => [[c]]
        | h :: rest => (c :: h) :: rest

/-- The JS string split on a single-space separator. -/
def splitSpaces (s : String) : List String :=
  (splitChars (Char.ofNat 32) s.data).map String.mk

/-- Token extraction from the `authenticate` middleware: split the
authorization header on single spaces and take element 1, which is
absent when the header is missing or has no second part. -/
def extractToken (authHeader : Option String) : Option String :=
  authHeader.bind (fun h => (splitSpaces h).get? 1)

/-- Outcome of the `authenticate` middleware: either the decoded
`\x7bid, email\x7d` principal, or the 401 error message sent. -/
inductive AuthResult where
  | success : Int → String → AuthResult
  | failure : String → AuthResult
deriving Repr, DecidableEq

/-- The `authenticate` middleware. `verify` is `jwt.verify` with the
process secret fixed: a pure function from token to decoded claims,
`none` when signature verification throws. `!token` in the source is
JS truthiness in the source rejects both a missing extracted token and
an empty one with the same 401 message. -/
def authenticate (verify : String → Option (Int × String))
    (authHeader : Option String) : AuthResult :=
  match extractToken authHeader with
  | none => AuthResult.failure "No token provided"
  | some t =>
      if t.isEmpty then AuthResult.failure "No token provided"
      else
        match verify t with
        | some p => AuthResult.success p.1 p.2
        | none => AuthResult.failure "Invalid token"

/-- The full route: `authenticate` runs as middleware ahead of the
execute handler, so a 401 rejection happens before the handler runs. -/
def executeRoute (verify : String → Option (Int × String)) (env : Env)
    (authHeader : Option String) (dashboardId naturalLanguage : String) : ExecOutcome :=
  match authenticate verify authHeader with
  | AuthResult.failure e => ⟨HttpResponse.unauthorized e, env.store, []⟩
  | AuthResult.success _ _ => executeHandler env dashboardId naturalLanguage

/-- Topic name used by `socket.join` and `io.to`. -/
def dashboardTopic (dashboardId : String) : String :=
  "dashboard-" ++ dashboardId

/-- Socket.io emissions from the `execute-query` handler: a
`query-result` broadcast to every subscriber of the topic, or a
`query-error` sent to the originating socket only. -/
inductive SocketEvent where
  | queryResult : String → String → SocketEvent
  | queryError : String → SocketEvent
deriving Repr, DecidableEq

/-- The `execute-query` socket handler (`src/server.ts` lines 101-124):
throw on empty or over-500-character text (caught and emitted to the
sender as `query-error`), otherwise broadcast a placeholder
`query-result` to `dashboard-{dashboardId}`. The connection handler
registers this for every socket with no authentication step. -/
def socketExecuteQuery (queryId dashboardId naturalLanguage : String) : List SocketEvent :=
  if naturalLanguage.isEmpty || naturalLanguage.length > 500 then
    [SocketEvent.queryError "Invalid query"]
  else
    [SocketEvent.queryResult (dashboardTopic dashboardId) queryId]

/-- A caught JS error as the Express error handler sees it:
`appStatusCode = some c` iff the error is an `AppError` with that
`statusCode` (otherwise the handler uses 500). -/
structure JsError where
  message : String
  stack : Option String
  appStatusCode : Option Nat
deriving Repr, DecidableEq

/-- The JSON body `errorHandler` sends. -/
structure ErrorBody where
  message : String
  statusCode : Nat
  stack : Option String
deriving Repr, DecidableEq

/-- The Express error handler from src/middleware/errorHandler.ts:
status from the AppError statusCode when the error is an AppError,
otherwise 500; outside development the message is the constant fallback
and no stack is attached. Returns (status, body). -/
def errorHandler (nodeEnv : String) (err : JsError) : Nat × ErrorBody :=
  let statusCode := err.appStatusCode.getD 500
  let message := if err.message.isEmpty then "Internal Server Error" else err.message
  let isDevelopment := nodeEnv == "development"
  let errorMessage := if isDevelopment then message else "Something went wrong"
  (statusCode, ⟨errorMessage, statusCode, if isDevelopment then err.stack else none⟩)

/-- A configured client with an empty, reachable backing store and a
working database, for concrete runs. -/
def envOk : Env := ⟨⟨"https://cache.example", "tk"⟩, [], 0, false, false, false⟩

/-- Same as `envOk` except the database insert throws. -/
def envDbFail : Env := ⟨⟨"https://cache.example", "tk"⟩, [], 0, false, false, true⟩

/-- A 501-character query text. -/
def longText : String := String.mk (List.replicate 501 (Char.ofNat 97))

/-- A concrete stand-in for jwt.verify with the process secret fixed:
accepts exactly the token "tok". -/
def verifyTok : String → Option (Int × String) :=
  fun t => if t = "tok" then some (1, "user@example.com") else none

/-- Reading back the key just written finds it until its expiry. -/
theorem storeGet_storeSet_same (s : Store) (k v : String) (ex now : Nat) :
    storeGet (storeSet s k v ex) now k = if now < ex then some v else none := by
  simp [storeGet, storeSet]

/-- With a configured client and a reachable backend, get reads the store. -/
theorem redisGet_ok (c : RedisClient) (s : Store) (now : Nat) (k : String)
    (hcfg : c.baseUrl.isEmpty = false) :
    c.get s now false k = storeGet s now k := by
  simp [RedisClient.get, hcfg, backendGet]

/-- With a configured client and a reachable backend, set writes the
store with expiry now plus the requested TTL (default 300). -/
theorem redisSet_ok (c : RedisClient) (s : Store) (now : Nat) (k v : String)
    (ex : Option Nat) (hcfg : c.baseUrl.isEmpty = false) :
    c.set s now false k v ex = storeSet s k v (now + ex.getD 300) := by
  simp [RedisClient.set, hcfg, backendSet]

/-- The execute handler on a cache hit: reply from the cache, store
untouched, trace is the single cache read. -/
theorem executeHandler_hit (env : Env) (d t cached : String)
    (hne : t.isEmpty = false)
    (hhit : env.client.get env.store env.now env.getFails (cacheKey d t) = some cached) :
    executeHandler env d t
      = ⟨HttpResponse.ok cached true, env.store, [Effect.cacheGet (cacheKey d t)]⟩ := by
  simp [executeHandler, hne, hhit]

/-- The execute handler on a cache miss: build the mock result, cache
it with an explicit TTL of 5, attempt the insert; the response is 500
when the insert throws and the fresh envelope otherwise. -/
theorem executeHandler_miss (env : Env) (d t : String)
    (hne : t.isEmpty = false)
    (hmiss : env.client.get env.store env.now env.getFails (cacheKey d t) = none) :
    executeHandler env d t
      = ⟨if env.dbFails then HttpResponse.serverError "Query execution failed"
          else HttpResponse.ok mockResult.toJson false,
         env.client.set env.store env.now env.setFails (cacheKey d t) mockResult.toJson (some 5),
         [Effect.cacheGet (cacheKey d t), Effect.execute t,
          Effect.cacheSet (cacheKey d t) mockResult.toJson 5,
          Effect.dbInsert d t mockResult.toJson]⟩ := by
  cases h : env.dbFails <;> simp [executeHandler, hne, hmiss, h]

/-- The trace of the execute route never contains a broadcast, on any
path: the HTTP handler has no socket.io call at all. -/
theorem executeRoute_no_broadcast (verify : String → Option (Int × String))
    (env : Env) (h : Option String) (d t : String) :
    ((executeRoute verify env h d t).effects.all (fun e => !e.isBroadcast)) = true := by
  unfold executeRoute
  cases authenticate verify h with
  | failure e => rfl
  | success i em =>
      unfold executeHandler
      by_cases hne : t.isEmpty = true
      · simp [hne]
      · simp only [hne]
        cases env.client.get env.store env.now env.getFails (cacheKey d t) with
        | some cached => simp [Effect.isBroadcast]
        | none =>
            cases env.dbFails <;> simp [Effect.isBroadcast]

/-- A concrete store holding a live entry for dashboard 42 and the text
"top 5 customers". -/
def storeWithHit : Store := [(cacheKey "42" "top 5 customers", "cachedvalue", 100)]

/-- Claim C2: for every valid (dashboardId, text) pair, two calls of the
execute handler within the TTL window (here, with a configured and
reachable cache and a working database) return bit-identical data, the
first with fromCache false and the second with fromCache true, and the
second call performs only the cache read — in particular it never
invokes the executor. -/
theorem c2_second_call_within_ttl_hits_cache (env : Env) (d t : String) (t1 : Nat)
    (hcfg : env.client.baseUrl.isEmpty = false)
    (hsf : env.setFails = false) (hdb : env.dbFails = false)
    (hne : t.isEmpty = false)
    (hmiss : env.client.get env.store env.now env.getFails (cacheKey d t) = none)
    (hwin : t1 < env.now + 5) :
    (executeHandler env d t).response = HttpResponse.ok mockResult.toJson false
    ∧ executeHandler ⟨env.client, (executeHandler env d t).store, t1, false, false, false⟩ d t
        = ⟨HttpResponse.ok mockResult.toJson true,
           (executeHandler env d t).store,
           [Effect.cacheGet (cacheKey d t)]⟩ := by
  have h1 := executeHandler_miss env d t hne hmiss
  have hst : (executeHandler env d t).store
      = storeSet env.store (cacheKey d t) mockResult.toJson (env.now + 5) := by
    rw [h1]
    show env.client.set env.store env.now env.setFails (cacheKey d t) mockResult.toJson (some 5)
        = _
    rw [hsf, redisSet_ok _ _ _ _ _ _ hcfg]
    rfl
  have hhit2 : env.client.get (executeHandler env d t).store t1 false (cacheKey d t)
      = some mockResult.toJson := by
    rw [hst, redisGet_ok _ _ _ _ hcfg, storeGet_storeSet_same, if_pos hwin]
  refine ⟨?_, ?_⟩
  · rw [h1]
    show (if env.dbFails then _ else _) = _
    rw [hdb]
    rfl
  · exact executeHandler_hit
      ⟨env.client, (executeHandler env d t).store, t1, false, false, false⟩
      d t mockResult.toJson hne hhit2

/-- Witness for C2: dashboard 42, text "top 5 customers", first call at
time 0 against an empty store, second call at time 3 (within the
5-second window the first write opened). -/
theorem c2_witness :
    (executeHandler envOk "42" "top 5 customers").response
        = HttpResponse.ok mockResult.toJson false
    ∧ executeHandler
        ⟨envOk.client, (executeHandler envOk "42" "top 5 customers").store, 3, false, false, false⟩
        "42" "top 5 customers"
        = ⟨HttpResponse.ok mockResult.toJson true,
           (executeHandler envOk "42" "top 5 customers").store,
           [Effect.cacheGet (cacheKey "42" "top 5 customers")]⟩ :=
  c2_second_call_within_ttl_hits_cache envOk "42" "top 5 customers" 3
    (by decide) rfl rfl (by decide) (by decide) (by decide)

/-- Claim C6: the cache degrades transparently. When unconfigured, get
returns absent and set/del leave the store untouched, whatever the
backend would do; when configured but the backend round trip fails, get
returns absent and set/del leave the store untouched — a backend
failure is indistinguishable from a miss, and by construction of the
catch in each method no error reaches the caller. -/
theorem c6_cache_degrades_transparently (c : RedisClient) (s : Store) (now : Nat)
    (k v : String) (ex : Option Nat) :
    (c.baseUrl.isEmpty = true →
      ∀ fail, c.get s now fail k = none ∧ c.set s now fail k v ex = s ∧ c.del s fail k = s)
    ∧ (c.get s now true k = none ∧ c.set s now true k v ex = s ∧ c.del s true k = s) := by
  constructor
  · intro h fail
    refine ⟨?_, ?_, ?_⟩ <;> simp [RedisClient.get, RedisClient.set, RedisClient.del, h]
  · refine ⟨?_, ?_, ?_⟩
    · by_cases h : c.baseUrl.isEmpty = true <;> simp [RedisClient.get, backendGet, h]
    · by_cases h : c.baseUrl.isEmpty = true <;> simp [RedisClient.set, backendSet, h]
    · by_cases h : c.baseUrl.isEmpty = true <;> simp [RedisClient.del, backendDel, h]

/-- Witness for C6: an unconfigured client with a working backend, and
a configured client whose backend round trips throw. -/
theorem c6_witness :
    ((RedisClient.mk "" "tk").get [] 0 false "k" = none
      ∧ (RedisClient.mk "" "tk").set [] 0 false "k" "v" none = []
      ∧ (RedisClient.mk "" "tk").del [] false "k" = [])
    ∧ ((RedisClient.mk "https://cache.example" "tk").get [] 7 true "k" = none
      ∧ (RedisClient.mk "https://cache.example" "tk").set [] 7 true "k" "v" (some 60) = []
      ∧ (RedisClient.mk "https://cache.example" "tk").del [] true "k" = []) :=
  ⟨(c6_cache_degrades_transparently ⟨"", "tk"⟩ [] 0 "k" "v" none).1 (by decide) false,
   (c6_cache_degrades_transparently ⟨"https://cache.example", "tk"⟩ [] 7 "k" "v" (some 60)).2⟩

/-- Claim C9: on a cache hit the execute handler performs no durable
write and no cache write: the outcome is exactly the cached reply, the
store is returned unchanged (so the TTL of the entry is not refreshed),
and the trace is the single cache read — no insert, no set, no
broadcast. -/
theorem c9_cache_hit_frame (env : Env) (d t cached : String)
    (hne : t.isEmpty = false)
    (hhit : env.client.get env.store env.now env.getFails (cacheKey d t) = some cached) :
    executeHandler env d t
      = ⟨HttpResponse.ok cached true, env.store, [Effect.cacheGet (cacheKey d t)]⟩ :=
  executeHandler_hit env d t cached hne hhit

/-- Witness for C9: a store holding a live entry for the key; the run
leaves it untouched and traces only the read. -/
theorem c9_witness :
    executeHandler ⟨⟨"https://cache.example", "tk"⟩, storeWithHit, 0, false, false, false⟩
        "42" "top 5 customers"
      = ⟨HttpResponse.ok "cachedvalue" true, storeWithHit,
         [Effect.cacheGet (cacheKey "42" "top 5 customers")]⟩ :=
  c9_cache_hit_frame
    ⟨⟨"https://cache.example", "tk"⟩, storeWithHit, 0, false, false, false⟩
    "42" "top 5 customers" "cachedvalue" (by decide) (by decide)

/-- Claim C10: outside development the error-handler body is a function
of the status code alone — two errors mapping to the same status code
produce identical responses, the message is always the constant
fallback, and no stack trace is attached. -/
theorem c10_production_body_uniform (nodeEnv : String) (e1 e2 : JsError)
    (hprod : (nodeEnv == "development") = false)
    (hcode : e1.appStatusCode.getD 500 = e2.appStatusCode.getD 500) :
    errorHandler nodeEnv e1 = errorHandler nodeEnv e2
    ∧ (errorHandler nodeEnv e1).2.message = "Something went wrong"
    ∧ (errorHandler nodeEnv e1).2.stack = none := by
  refine ⟨?_, ?_, ?_⟩ <;> simp [errorHandler, hprod, hcode]

/-- Witness for C10: two unrelated errors—one with a stack and no
AppError code, one an AppError 500—get the same production body. -/
theorem c10_witness :
    errorHandler "production" ⟨"boom", some "trace", none⟩
        = errorHandler "production" ⟨"other", none, some 500⟩
    ∧ (errorHandler "production" ⟨"boom", some "trace", none⟩).2.message
        = "Something went wrong"
    ∧ (errorHandler "production" ⟨"boom", some "trace", none⟩).2.stack = none :=
  c10_production_body_uniform "production" ⟨"boom", some "trace", none⟩
    ⟨"other", none, some 500⟩ (by decide) (by decide)

/-- Claim C1 counterexample: a concrete, successfully resolved query
through the HTTP execute route — valid token, fresh execution, a 200
envelope returned — whose call trace contains no publish to topic
dashboard-42 or any other topic: the route never broadcasts, so
subscribers do not receive a result event for this successful
resolution. -/
theorem c1_counterexample :
    (executeRoute verifyTok envOk (some "Bearer tok") "42" "top 5 customers").response
        = HttpResponse.ok mockResult.toJson false
    ∧ ((executeRoute verifyTok envOk (some "Bearer tok") "42" "top 5 customers").effects.all
        (fun e => !e.isBroadcast)) = true := by
  exact ⟨rfl, rfl⟩

/-- Claim C1 as amended: the HTTP execute route never publishes to any
topic on any path — cache hit, fresh execution, validation failure or
auth failure alike — so its result reaches only the requester in the
direct reply; publishing to dashboard-(dashboardId) happens only in the
socket execute-query handler, which emits its (placeholder) result
event to the topic for every valid request. -/
theorem c1_http_reply_only_socket_broadcasts :
    (∀ (verify : String → Option (Int × String)) (env : Env) (h : Option String) (d t : String),
        ((executeRoute verify env h d t).effects.all (fun e => !e.isBroadcast)) = true)
    ∧ (∀ q d (t : String), t.isEmpty = false → ¬ 500 < t.length →
        socketExecuteQuery q d t = [SocketEvent.queryResult (dashboardTopic d) q]) := by
  constructor
  · exact executeRoute_no_broadcast
  · intro q d t hne hlen
    simp [socketExecuteQuery, hne, hlen]

/-- Witness for C1 as amended: an unauthenticated HTTP call leaves no
broadcast in its trace, and a valid socket call broadcasts to its
topic. -/
theorem c1_witness :
    ((executeRoute verifyTok envOk none "42" "weekly revenue").effects.all
        (fun e => !e.isBroadcast)) = true
    ∧ socketExecuteQuery "q9" "7" "weekly revenue"
        = [SocketEvent.queryResult (dashboardTopic "7") "q9"] :=
  ⟨c1_http_reply_only_socket_broadcasts.1 verifyTok envOk none "42" "weekly revenue",
   c1_http_reply_only_socket_broadcasts.2 "q9" "7" "weekly revenue" (by decide) (by decide)⟩

set_option maxRecDepth 8000 in
/-- Claim C3 counterexample: a 501-character text is not rejected by the
HTTP execute handler — the run resolves normally with a cache read, an
executor invocation, a cache write and a DB insert in its trace,
refuting the claim that over-500-character text is rejected before the
cache is consulted or the executor invoked. -/
theorem c3_counterexample :
    longText.length = 501
    ∧ (executeHandler envOk "42" longText).response = HttpResponse.ok mockResult.toJson false
    ∧ (executeHandler envOk "42" longText).effects
        = [Effect.cacheGet (cacheKey "42" longText), Effect.execute longText,
           Effect.cacheSet (cacheKey "42" longText) mockResult.toJson 5,
           Effect.dbInsert "42" longText mockResult.toJson] := by
  exact ⟨rfl, rfl, rfl⟩

/-- Claim C3 as amended: empty text is rejected with 400 before any
cache or executor access — zero effects and an unchanged store — but
the 500-character bound is enforced only by the socket execute-query
handler; the HTTP handler consults the cache for every nonempty text,
however long. -/
theorem c3_empty_check_http_length_check_socket_only :
    (∀ (env : Env) d (t : String), t.isEmpty = true →
        executeHandler env d t
          = ⟨HttpResponse.badRequest "Natural language query required", env.store, []⟩)
    ∧ (∀ (env : Env) d (t : String), t.isEmpty = false →
        Effect.cacheGet (cacheKey d t) ∈ (executeHandler env d t).effects)
    ∧ (∀ q d (t : String), t.isEmpty = true ∨ 500 < t.length →
        socketExecuteQuery q d t = [SocketEvent.queryError "Invalid query"]) := by
  refine ⟨?_, ?_, ?_⟩
  · intro env d t h
    simp [executeHandler, h]
  · intro env d t h
    unfold executeHandler
    simp only [h, Bool.false_eq_true, if_false]
    cases env.client.get env.store env.now env.getFails (cacheKey d t) with
    | some c => simp
    | none => cases env.dbFails <;> simp
  · intro q d t h
    rcases h with h | h
    · simp [socketExecuteQuery, h]
    · simp [socketExecuteQuery, h]

/-- Witness for C3 as amended: the empty text at the HTTP handler, a
nonempty text reaching the cache, and the empty text at the socket
handler. -/
theorem c3_witness :
    executeHandler envOk "42" ""
        = ⟨HttpResponse.badRequest "Natural language query required", envOk.store, []⟩
    ∧ Effect.cacheGet (cacheKey "9" "sales by region")
        ∈ (executeHandler envOk "9" "sales by region").effects
    ∧ socketExecuteQuery "q2" "9" "" = [SocketEvent.queryError "Invalid query"] :=
  ⟨c3_empty_check_http_length_check_socket_only.1 envOk "42" "" (by decide),
   c3_empty_check_http_length_check_socket_only.2.1 envOk "9" "sales by region" (by decide),
   c3_empty_check_http_length_check_socket_only.2.2 "q2" "9" "" (Or.inl (by decide))⟩

/-- Claim C4 counterexample: the fresh-execution cache write made by the
execute handler carries an explicit TTL of 5 seconds, not the
300-second default — the entry written at time 0 is already absent at
time 5, long before the 300 seconds the claim promises. -/
theorem c4_counterexample :
    (executeHandler envOk "42" "top 5 customers").store
        = [(cacheKey "42" "top 5 customers", mockResult.toJson, 5)]
    ∧ storeGet (executeHandler envOk "42" "top 5 customers").store 5
        (cacheKey "42" "top 5 customers") = none
    ∧ (5 : Nat) < 300 := by
  exact ⟨rfl, rfl, by decide⟩

/-- Claim C4 as amended: after a successful fresh execution the handler
writes the result to the cache with an explicit TTL of 5 seconds, so
the entry expires 5 seconds after the write; the 300-second default of
the cache client applies only to calls that omit the TTL argument,
which the execute handler never does. -/
theorem c4_fresh_write_uses_explicit_five_second_ttl (env : Env) (d t : String)
    (hne : t.isEmpty = false)
    (hmiss : env.client.get env.store env.now env.getFails (cacheKey d t) = none)
    (hcfg : env.client.baseUrl.isEmpty = false) (hsf : env.setFails = false) :
    Effect.cacheSet (cacheKey d t) mockResult.toJson 5 ∈ (executeHandler env d t).effects
    ∧ (executeHandler env d t).store
        = storeSet env.store (cacheKey d t) mockResult.toJson (env.now + 5)
    ∧ ∀ (s : Store) (now : Nat) (k v : String),
        env.client.set s now false k v none = storeSet s k v (now + 300) := by
  refine ⟨?_, ?_, ?_⟩
  · rw [executeHandler_miss env d t hne hmiss]
    simp
  · rw [executeHandler_miss env d t hne hmiss]
    show env.client.set env.store env.now env.setFails (cacheKey d t) mockResult.toJson (some 5)
        = _
    rw [hsf, redisSet_ok _ _ _ _ _ _ hcfg]
    rfl
  · intro s now k v
    rw [redisSet_ok _ _ _ _ _ _ hcfg]
    rfl

/-- Witness for C4 as amended at concrete inputs. -/
theorem c4_witness :
    Effect.cacheSet (cacheKey "8" "orders today") mockResult.toJson 5
        ∈ (executeHandler envOk "8" "orders today").effects
    ∧ (executeHandler envOk "8" "orders today").store
        = storeSet envOk.store (cacheKey "8" "orders today") mockResult.toJson (envOk.now + 5)
    ∧ ∀ (s : Store) (now : Nat) (k v : String),
        envOk.client.set s now false k v none = storeSet s k v (now + 300) :=
  c4_fresh_write_uses_explicit_five_second_ttl envOk "8" "orders today"
    (by decide) (by decide) (by decide) rfl

/-- Claim C5 counterexample: two texts equal up to letter case, and two
texts equal up to surrounding whitespace, derive different cache keys —
the key derivation performs no normalization, so the second query
misses the entry written by the first. -/
theorem c5_counterexample :
    cacheKey "42" "top 5 customers" ≠ cacheKey "42" "Top 5 Customers"
    ∧ cacheKey "42" "top 5 customers" ≠ cacheKey "42" " top 5 customers " := by
  exact ⟨by decide, by decide⟩

/-- Claim C5 as amended: the cache key is a deterministic function of
the dashboard id and the raw query text — for a fixed dashboard, two
texts derive the same key exactly when they are byte-identical, so only
literally identical repeat queries hit the cache; case and whitespace
are significant. -/
theorem c5_key_injective_in_raw_text (d t1 t2 : String) :
    cacheKey d t1 = cacheKey d t2 ↔ t1 = t2 := by
  constructor
  · intro h
    have h2 := congrArg String.data h
    simp only [cacheKey, String.data_append] at h2
    exact String.ext (List.append_cancel_left h2)
  · intro h
    rw [h]

/-- Witness for C5 as amended at concrete inputs. -/
theorem c5_witness :
    cacheKey "42" "top 5 customers" = cacheKey "42" "weekly revenue"
      ↔ "top 5 customers" = "weekly revenue" :=
  c5_key_injective_in_raw_text "42" "top 5 customers" "weekly revenue"

/-- Claim C7 counterexample: the socket execute-query request carries no
bearer token — the connection handler registers it without any
authentication step and the handler reads only queryId, dashboardId and
the text — yet the request is processed and produces a topic broadcast
instead of being rejected with an auth error. -/
theorem c7_counterexample :
    socketExecuteQuery "q1" "7" "top 5 customers"
      = [SocketEvent.queryResult (dashboardTopic "7") "q1"] := by
  exact rfl

/-- Claim C7 as amended: on the HTTP route, a missing token and a token
that fails verification are both rejected with a 401 body before the
handler runs — the store is untouched and the trace is empty, and the
middleware never yields a principal without a verified token; the
socket execute-query channel, however, performs no authentication at
all. -/
theorem c7_http_auth_gate_socket_has_none :
    (∀ (verify : String → Option (Int × String)) (env : Env) (d t : String),
        executeRoute verify env none d t
          = ⟨HttpResponse.unauthorized "No token provided", env.store, []⟩)
    ∧ (∀ (verify : String → Option (Int × String)) (env : Env) (h : Option String)
          (d t tok : String), extractToken h = some tok → tok.isEmpty = false →
        verify tok = none →
        executeRoute verify env h d t
          = ⟨HttpResponse.unauthorized "Invalid token", env.store, []⟩)
    ∧ (∀ (verify : String → Option (Int × String)) (h : Option String) (i : Int) (em : String),
        authenticate verify h = AuthResult.success i em →
        ∃ tok, extractToken h = some tok ∧ tok.isEmpty = false ∧ verify tok = some (i, em)) := by
  refine ⟨?_, ?_, ?_⟩
  · intro verify env d t
    rfl
  · intro verify env h d t tok hex hne hv
    unfold executeRoute authenticate
    rw [hex]
    simp [hne, hv]
  · intro verify h i em hsucc
    unfold authenticate at hsucc
    cases hex : extractToken h with
    | none => simp [hex] at hsucc
    | some tok =>
        rw [hex] at hsucc
        cases htok : tok.isEmpty with
        | true => simp [htok] at hsucc
        | false =>
            simp only [htok, Bool.false_eq_true, if_false] at hsucc
            cases hv : verify tok with
            | none => simp [hv] at hsucc
            | some p =>
                rw [hv] at hsucc
                injection hsucc with h1 h2
                refine ⟨tok, rfl, htok, ?_⟩
                rw [hv, ← h1, ← h2]

/-- Witness for C7 as amended: a request with no header, a request with
a token the verifier rejects, and a successful authentication that
exhibits its verified token. -/
theorem c7_witness :
    executeRoute verifyTok envOk none "42" "top 5 customers"
        = ⟨HttpResponse.unauthorized "No token provided", envOk.store, []⟩
    ∧ executeRoute verifyTok envOk (some "Bearer wrong") "42" "top 5 customers"
        = ⟨HttpResponse.unauthorized "Invalid token", envOk.store, []⟩
    ∧ ∃ tok, extractToken (some "Bearer tok") = some tok ∧ tok.isEmpty = false
        ∧ verifyTok tok = some (1, "user@example.com") :=
  ⟨c7_http_auth_gate_socket_has_none.1 verifyTok envOk "42" "top 5 customers",
   c7_http_auth_gate_socket_has_none.2.1 verifyTok envOk (some "Bearer wrong")
     "42" "top 5 customers" "wrong" (by decide) (by decide) (by decide),
   c7_http_auth_gate_socket_has_none.2.2 verifyTok (some "Bearer tok")
     1 "user@example.com" (by decide)⟩

/-- Claim C8 counterexample: with a failing database insert after an
otherwise successful fresh execution, the execute handler responds 500
instead of returning the envelope, and nothing is broadcast — the
persistence failure does convert the successful resolution into an
error response. -/
theorem c8_counterexample :
    (executeHandler envDbFail "42" "top 5 customers").response
        = HttpResponse.serverError "Query execution failed"
    ∧ ((executeHandler envDbFail "42" "top 5 customers").effects.all
        (fun e => !e.isBroadcast)) = true := by
  exact ⟨rfl, rfl⟩

/-- Claim C8 as amended: when the durable-storage insert throws after a
successful fresh execution, the catch-all of the handler replies 500
and no envelope reaches the caller; the cache write that preceded the
insert has already taken effect, so the run leaves a cache entry but no
successful response. -/
theorem c8_db_failure_turns_success_into_500 (env : Env) (d t : String)
    (hne : t.isEmpty = false)
    (hmiss : env.client.get env.store env.now env.getFails (cacheKey d t) = none)
    (hdb : env.dbFails = true) :
    (executeHandler env d t).response = HttpResponse.serverError "Query execution failed"
    ∧ (executeHandler env d t).store
        = env.client.set env.store env.now env.setFails (cacheKey d t)
            mockResult.toJson (some 5) := by
  rw [executeHandler_miss env d t hne hmiss]
  refine ⟨?_, rfl⟩
  simp [hdb]

/-- Witness for C8 as amended at concrete inputs. -/
theorem c8_witness :
    (executeHandler envDbFail "3" "revenue by month").response
        = HttpResponse.serverError "Query execution failed"
    ∧ (executeHandler envDbFail "3" "revenue by month").store
        = envDbFail.client.set envDbFail.store envDbFail.now envDbFail.setFails
            (cacheKey "3" "revenue by month") mockResult.toJson (some 5) :=
  c8_db_failure_turns_success_into_500 envDbFail "3" "revenue by month"
    (by decide) (by decide) rfl

end QueryDash
